import Mathlib

/-!
Verification of the data-synchronization / consistency core of the
`aseps-asia-io` manufacturing-project tracking dashboard.

The shallow embedding below translates the store variant of
`src/unnamed/part_002` (the `DataProvider` with shipment support), the
remote sync adapter `src/src/integrations/supabase/dataSync.ts`, the
startup fallback of `src/unnamed/part_001`, and the merge-style
`updateProject` of `src/src/contexts/DataContext.tsx`.

Modelling conventions:
* JavaScript numbers are modelled as rationals (`ℚ`); the data only ever
  holds finite decimal values, and `Math.round x` is modelled as
  `⌊x + 1/2⌋` (round half toward positive infinity), which is exactly
  `Math.round` on finite numbers.
* TypeScript string-literal union types (`status`, `type` fields) erase to
  strings at runtime and are modelled as `String`.
* Optional fields (`field?: T`) are modelled as `Option T`; `undefined`
  is `none`.  The JavaScript guard `x || 0` is `Option.getD` composed with
  nothing else, since the only falsy numeric values occurring are
  `undefined` and `0`, and both map to `0`.
* Generated uuids are passed in as explicit `newId` arguments.
-/

namespace Aseps

/-- `Project` record of `part_002` (`src/unnamed/part_002` lines 8-19). -/
structure Project where
  id : String
  name : String
  clientId : String
  location : String
  status : String
  progress : ℚ
  startDate : String
  endDate : String
  projectManager : Option String
  description : Option String
deriving DecidableEq, Repr

/-- `Client` record (`part_002` lines 21-28). -/
structure Client where
  id : String
  name : String
  contactPerson : Option String
  email : Option String
  phone : Option String
  location : Option String
deriving DecidableEq, Repr

/-- `Supplier` record (`part_002` lines 30-42). -/
structure Supplier where
  id : String
  name : String
  country : Option String
  contactPerson : Option String
  email : Option String
  phone : Option String
  rating : Option ℚ
  onTimeDelivery : Option ℚ
  location : Option String
  positiveComments : Option (List String)
  negativeComments : Option (List String)
deriving DecidableEq, Repr

/-- `Part` record (`part_002` lines 44-50). -/
structure Part where
  id : String
  name : String
  quantity : ℚ
  status : String
  progress : Option ℚ
deriving DecidableEq, Repr

/-- `PurchaseOrder` record (`part_002` lines 52-64). -/
structure PurchaseOrder where
  id : String
  poNumber : String
  projectId : String
  supplierId : String
  status : String
  deadline : String
  issuedDate : String
  parts : List Part
  progress : Option ℚ
  amount : Option ℚ
  description : Option String
deriving DecidableEq, Repr

/-- `Shipment` record (`part_002` lines 66-83). -/
structure Shipment where
  id : String
  projectId : String
  supplierId : String
  poId : String
  partId : String
  type : String
  containerNumber : Option String
  containerSize : Option String
  containerType : Option String
  lockNumber : Option String
  shippedDate : String
  etdDate : String
  etaDate : String
  status : Option String
  trackingNumber : Option String
  notes : Option String
deriving DecidableEq, Repr

/-- `ExternalLink` record (`part_002` lines 85-94). -/
structure ExternalLink where
  id : String
  type : String
  projectId : String
  supplierId : Option String
  poId : Option String
  title : String
  url : String
  date : String
deriving DecidableEq, Repr

/-- The `DataState` snapshot held in the `data` `useState` of the
`DataProvider` (all six collections; `prev.shipments || []` is modelled by
making the field total with `[]` for an absent key). -/
structure DataState where
  projects : List Project
  clients : List Client
  suppliers : List Supplier
  purchaseOrders : List PurchaseOrder
  externalLinks : List ExternalLink
  shipments : List Shipment
deriving DecidableEq, Repr

/-- `Math.round` on a finite JavaScript number: round half toward `+∞`. -/
def jRound (q : ℚ) : ℤ := ⌊q + 1 / 2⌋

/-- `projectPOs.reduce((sum, po) => sum + (po.progress || 0), 0)`
(`part_002` lines 259, 287, 313, 349). -/
def progressSum (pos : List PurchaseOrder) : ℚ :=
  pos.foldl (fun sum po => sum + po.progress.getD 0) 0

/-- `Math.round(totalProgress / projectPOs.length)` cast back to a number. -/
def averageProgress (pos : List PurchaseOrder) : ℚ :=
  ((jRound (progressSum pos / (pos.length : ℚ))) : ℤ)

/-- `updateProject` of `part_002` lines 171-176: the matching record is
replaced wholesale by the payload (typed `Omit<Project, "id">`) with the
old `id` put back; nothing of the old record survives. -/
def updateProject (id : String) (project : Project) (prev : DataState) : DataState :=
  { prev with
    projects := prev.projects.map (fun p => if p.id == id then { project with id := id } else p) }

/-- `deleteProject` of `part_002` lines 178-189: removes the project and
filters the snapshot's purchase orders, external links and embedded
shipments by `projectId`. -/
def deleteProject (id : String) (prev : DataState) : DataState :=
  { prev with
    projects := prev.projects.filter (fun p => p.id != id),
    purchaseOrders := prev.purchaseOrders.filter (fun po => po.projectId != id),
    externalLinks := prev.externalLinks.filter (fun el => el.projectId != id),
    shipments := prev.shipments.filter (fun s => s.projectId != id) }

/-- `deleteSupplier` of `part_002` lines 232-245. -/
def deleteSupplier (id : String) (prev : DataState) : DataState :=
  { prev with
    suppliers := prev.suppliers.filter (fun s => s.id != id),
    purchaseOrders := prev.purchaseOrders.filter (fun po => po.supplierId != id),
    externalLinks := prev.externalLinks.map (fun el =>
      if el.supplierId == some id then { el with supplierId := none } else el),
    shipments := prev.shipments.filter (fun s => s.supplierId != id) }

/-- `addPurchaseOrder` of `part_002` lines 275-298: appends the new
purchase order and recomputes the target project's progress from the
post-mutation purchase-order list. -/
def addPurchaseOrder (newId : String) (purchaseOrder : PurchaseOrder) (prev : DataState) :
    DataState :=
  let newPO := { purchaseOrder with id := newId }
  let projectId := purchaseOrder.projectId
  let projectPOs := (prev.purchaseOrders ++ [newPO]).filter (fun po => po.projectId == projectId)
  { prev with
    purchaseOrders := prev.purchaseOrders ++ [newPO],
    projects := prev.projects.map (fun project =>
      if project.id == projectId then { project with progress := averageProgress projectPOs }
      else project) }

/-- `updatePurchaseOrder` of `part_002` lines 300-325: replaces the
matching purchase order by the payload, then recomputes progress for the
payload's `projectId` only, and only when that project still has at least
one purchase order. -/
def updatePurchaseOrder (id : String) (purchaseOrder : PurchaseOrder) (prev : DataState) :
    DataState :=
  let updatedPOs := prev.purchaseOrders.map (fun po =>
    if po.id == id then { purchaseOrder with id := id } else po)
  let projectId := purchaseOrder.projectId
  let projectPOs := updatedPOs.filter (fun po => po.projectId == projectId)
  { prev with
    purchaseOrders := updatedPOs,
    projects :=
      if projectPOs.length > 0 then
        prev.projects.map (fun project =>
          if project.id == projectId then
            { project with progress := averageProgress projectPOs }
          else project)
      else prev.projects }

/-- `deletePurchaseOrder` of `part_002` lines 327-362.  The source guards
the recomputation with `if (projectId)`, which in JavaScript is false when
the deleted purchase order was not found (`undefined`) and also when its
`projectId` is the empty string (falsy); both are modelled faithfully. -/
def deletePurchaseOrder (id : String) (prev : DataState) : DataState :=
  let poToDelete := prev.purchaseOrders.find? (fun po => po.id == id)
  let filteredPOs := prev.purchaseOrders.filter (fun po => po.id != id)
  { prev with
    purchaseOrders := filteredPOs,
    externalLinks := prev.externalLinks.map (fun el =>
      if el.poId == some id then { el with poId := none } else el),
    shipments := prev.shipments.filter (fun s => s.poId != id),
    projects :=
      match poToDelete with
      | some po =>
        if po.projectId ≠ "" then
          let projectPOs := filteredPOs.filter (fun p => p.projectId == po.projectId)
          if projectPOs.length > 0 then
            prev.projects.map (fun project =>
              if project.id == po.projectId then
                { project with progress := averageProgress projectPOs }
              else project)
          else prev.projects
        else prev.projects
      | none => prev.projects }

/-- The full component state of the `part_002` `DataProvider`: the `data`
snapshot plus the separate `shipments` `useState` (line 156).  The context
value (lines 790-798) exposes `data.projects`, …, `data.externalLinks`
together with the *separate* shipments list, not `data.shipments`. -/
structure ProviderState where
  data : DataState
  shipmentsState : List Shipment
deriving DecidableEq, Repr

/-- `addShipment` of `part_002` lines 497-511: appends only to the
separate shipments state (the `syncAllData` side call does not change
local state). -/
def providerAddShipment (newId : String) (shipmentData : Shipment) (st : ProviderState) :
    ProviderState :=
  { st with shipmentsState := st.shipmentsState ++ [{ shipmentData with id := newId }] }

/-- `deleteProject` as observed through the whole component state: it runs
`setData` only, leaving the separate shipments state untouched. -/
def providerDeleteProject (id : String) (st : ProviderState) : ProviderState :=
  { st with data := deleteProject id st.data }

/-- The shipments collection consumers see (context value line 797). -/
def exposedShipments (st : ProviderState) : List Shipment := st.shipmentsState

/-!
## Remote Sync Adapter (`src/src/integrations/supabase/dataSync.ts`)

`syncAllData` issues one upsert per table against the remote store.  The
remote store's per-table outcome is an oracle (`SyncEnv`); the model
returns the `SyncResult` together with the ordered trace of upserts that
were actually issued.
-/

/-- A purchase-order row as pushed by `syncPurchaseOrders` (line 222):
the record without its embedded `parts` array. -/
structure PORow where
  id : String
  poNumber : String
  projectId : String
  supplierId : String
  status : String
  deadline : String
  issuedDate : String
  progress : Option ℚ
  amount : Option ℚ
  description : Option String
deriving DecidableEq, Repr

/-- `({ parts, ...po }) => po`: drop the `parts` key. -/
def stripParts (po : PurchaseOrder) : PORow :=
  { id := po.id, poNumber := po.poNumber, projectId := po.projectId,
    supplierId := po.supplierId, status := po.status, deadline := po.deadline,
    issuedDate := po.issuedDate, progress := po.progress, amount := po.amount,
    description := po.description }

/-- A part row as pushed to the `parts` table: the part tagged with its
parent purchase order's id as `po_id` (dataSync.ts line 67). -/
structure PartRow where
  id : String
  name : String
  quantity : ℚ
  status : String
  progress : Option ℚ
  po_id : String
deriving DecidableEq, Repr

/-- `{ ...part, po_id: po.id }`. -/
def tagPart (poId : String) (part : Part) : PartRow :=
  { id := part.id, name := part.name, quantity := part.quantity,
    status := part.status, progress := part.progress, po_id := poId }

/-- `purchaseOrders.flatMap(po => po.parts ? po.parts.map(part =>
({ ...part, po_id: po.id })) : [])` (dataSync.ts lines 66-68). -/
def flattenParts (purchaseOrders : List PurchaseOrder) : List PartRow :=
  purchaseOrders.flatMap (fun po => po.parts.map (tagPart po.id))

/-- `parts.map(part => ({ ...part, progress: part.progress || 0 }))`
inside `syncParts` (lines 259-262). -/
def syncPartsPayload (rows : List PartRow) : List PartRow :=
  rows.map (fun r => { r with progress := some (r.progress.getD 0) })

/-- The seven per-table steps of the push. -/
inductive SyncStep where
  | clients
  | projects
  | suppliers
  | purchaseOrders
  | parts
  | externalLinks
  | shipments
deriving DecidableEq, Repr

/-- Position of a step in the order `syncAllData` performs them. -/
def stepIdx : SyncStep → ℕ
  | .clients => 0
  | .projects => 1
  | .suppliers => 2
  | .purchaseOrders => 3
  | .parts => 4
  | .externalLinks => 5
  | .shipments => 6

/-- The failure message `syncAllData` returns for each step. -/
def failMsg : SyncStep → String
  | .clients => "Failed to sync clients"
  | .projects => "Failed to sync projects"
  | .suppliers => "Failed to sync suppliers"
  | .purchaseOrders => "Failed to sync purchase orders"
  | .parts => "Failed to sync parts"
  | .externalLinks => "Failed to sync external links"
  | .shipments => "Failed to sync shipments"

/-- Per-table outcome of the remote store's upsert call. -/
structure SyncEnv where
  clientsOk : Bool
  projectsOk : Bool
  suppliersOk : Bool
  purchaseOrdersOk : Bool
  partsOk : Bool
  externalLinksOk : Bool
  shipmentsOk : Bool
deriving DecidableEq, Repr

/-- Whether the environment lets a given step's upsert succeed. -/
def stepOk (env : SyncEnv) : SyncStep → Bool
  | .clients => env.clientsOk
  | .projects => env.projectsOk
  | .suppliers => env.suppliersOk
  | .purchaseOrders => env.purchaseOrdersOk
  | .parts => env.partsOk
  | .externalLinks => env.externalLinksOk
  | .shipments => env.shipmentsOk

/-- One upsert issued against the remote store, with its payload. -/
inductive SyncUpsert where
  | clients (rows : List Client)
  | projects (rows : List Project)
  | suppliers (rows : List Supplier)
  | purchaseOrders (rows : List PORow)
  | parts (rows : List PartRow)
  | externalLinks (rows : List ExternalLink)
  | shipments (rows : List Shipment)
deriving DecidableEq, Repr

/-- The table an upsert targets. -/
def SyncUpsert.step : SyncUpsert → SyncStep
  | .clients _ => .clients
  | .projects _ => .projects
  | .suppliers _ => .suppliers
  | .purchaseOrders _ => .purchaseOrders
  | .parts _ => .parts
  | .externalLinks _ => .externalLinks
  | .shipments _ => .shipments

/-- Result record of a sync operation (`SyncResult` in dataSync.ts,
restricted to the fields the claims are about). -/
structure SyncResult where
  success : Bool
  message : String
deriving DecidableEq, Repr

/-- Tail of `syncAllData` after the parts step: external links, then
shipments (the shipments upsert is only attempted when the list is
non-empty, dataSync.ts line 88). -/
def syncLinksAndShipments (env : SyncEnv) (externalLinks : List ExternalLink)
    (shipments : List Shipment) (t : List SyncUpsert) : SyncResult × List SyncUpsert :=
  let t6 := t ++ [SyncUpsert.externalLinks externalLinks]
  if env.externalLinksOk = false then (⟨false, "Failed to sync external links"⟩, t6)
  else if shipments.length = 0 then (⟨true, "All data synchronized successfully"⟩, t6)
  else
    let t7 := t6 ++ [SyncUpsert.shipments shipments]
    if env.shipmentsOk = false then (⟨false, "Failed to sync shipments"⟩, t7)
    else (⟨true, "All data synchronized successfully"⟩, t7)

/-- `syncAllData` (dataSync.ts lines 16-119).  `clearTables` (which only
deletes remote rows and swallows its own errors) is not an upsert and is
omitted from the trace.  `syncParts` returns success without touching the
table when there are no parts (lines 251-257). -/
def syncAllData (env : SyncEnv) (projects : List Project) (clients : List Client)
    (suppliers : List Supplier) (purchaseOrders : List PurchaseOrder)
    (externalLinks : List ExternalLink) (shipments : List Shipment) :
    SyncResult × List SyncUpsert :=
  let t1 := [SyncUpsert.clients clients]
  if env.clientsOk = false then (⟨false, "Failed to sync clients"⟩, t1)
  else
    let t2 := t1 ++ [SyncUpsert.projects projects]
    if env.projectsOk = false then (⟨false, "Failed to sync projects"⟩, t2)
    else
      let t3 := t2 ++ [SyncUpsert.suppliers suppliers]
      if env.suppliersOk = false then (⟨false, "Failed to sync suppliers"⟩, t3)
      else
        let t4 := t3 ++ [SyncUpsert.purchaseOrders (purchaseOrders.map stripParts)]
        if env.purchaseOrdersOk = false then (⟨false, "Failed to sync purchase orders"⟩, t4)
        else
          let allParts := flattenParts purchaseOrders
          if allParts.length = 0 then syncLinksAndShipments env externalLinks shipments t4
          else
            let t5 := t4 ++ [SyncUpsert.parts (syncPartsPayload allParts)]
            if env.partsOk = false then (⟨false, "Failed to sync parts"⟩, t5)
            else syncLinksAndShipments env externalLinks shipments t5

/-!
## Remote load (`loadAllData`, dataSync.ts lines 351-437)

Each table's select either returns rows or an error; the first six tables
are guarded by `if (error) throw error`, while a shipments error is
tolerated and replaced by the empty list.
-/

/-- Outcome of the seven `select('*')` calls. -/
structure RemoteTables where
  clientsRes : Except String (List Client)
  projectsRes : Except String (List Project)
  suppliersRes : Except String (List Supplier)
  purchaseOrdersRes : Except String (List PORow)
  partsRes : Except String (List PartRow)
  externalLinksRes : Except String (List ExternalLink)
  shipmentsRes : Except String (List Shipment)

/-- A purchase order as composed by `loadAllData`: the loaded row with the
matching part rows re-attached (lines 407-413). -/
structure LoadedPO where
  row : PORow
  parts : List PartRow
deriving DecidableEq, Repr

/-- Return value of `loadAllData` (success flag plus the six collections;
on the catch path everything is empty). -/
structure LoadResult where
  success : Bool
  clients : List Client
  projects : List Project
  suppliers : List Supplier
  purchaseOrders : List LoadedPO
  externalLinks : List ExternalLink
  shipments : List Shipment
deriving DecidableEq, Repr

/-- The `catch` branch of `loadAllData` (lines 424-436). -/
def loadFailure : LoadResult :=
  { success := false, clients := [], projects := [], suppliers := [],
    purchaseOrders := [], externalLinks := [], shipments := [] }

/-- `loadAllData` (dataSync.ts lines 351-437). -/
def loadAllData (db : RemoteTables) : LoadResult :=
  match db.clientsRes with
  | .error _ => loadFailure
  | .ok clientsData =>
    match db.projectsRes with
    | .error _ => loadFailure
    | .ok projectsData =>
      match db.suppliersRes with
      | .error _ => loadFailure
      | .ok suppliersData =>
        match db.purchaseOrdersRes with
        | .error _ => loadFailure
        | .ok purchaseOrdersData =>
          match db.partsRes with
          | .error _ => loadFailure
          | .ok partsData =>
            match db.externalLinksRes with
            | .error _ => loadFailure
            | .ok externalLinksData =>
              let shipments :=
                match db.shipmentsRes with
                | .error _ => []
                | .ok shipmentsData => shipmentsData
              let purchaseOrdersWithParts := purchaseOrdersData.map (fun po =>
                { row := po, parts := partsData.filter (fun part => part.po_id == po.id) })
              { success := true, clients := clientsData, projects := projectsData,
                suppliers := suppliersData, purchaseOrders := purchaseOrdersWithParts,
                externalLinks := externalLinksData, shipments := shipments }

/-!
## Startup resolution (`loadInitialData`, `src/unnamed/part_001` lines 135-161)

The effect first awaits the remote pull; on failure it reads the local
blob.  `JSON.parse` of a present-but-invalid blob throws, which the outer
`catch` swallows, leaving `data` at its initial value.
-/

/-- The state of the `asepsData` key in local storage: absent, present but
not valid JSON (so `JSON.parse` throws), or a well-formed snapshot. -/
inductive BlobSlot (α : Type) where
  | absent
  | corrupt
  | stored (s : α)
deriving DecidableEq, Repr

/-- `loadInitialData`: returns the snapshot held in `data` after the
effect together with the final `isLoading` flag.  `pullSuccess` is the
`result.success` of `loadFromSupabase` (which already stored `pulled` on
success); `init` is the empty initial snapshot of the provider. -/
def loadInitialData {α : Type} (pullSuccess : Bool) (pulled : α) (blob : BlobSlot α)
    (dummy : α) (init : α) : α × Bool :=
  if pullSuccess then (pulled, false)
  else
    match blob with
    | .stored s => (s, false)
    | .absent => (dummy, false)
    | .corrupt => (init, false)

/-- The provider's initial snapshot (`part_001` lines 121-130, extended
with the empty shipments collection). -/
def emptyDataState : DataState :=
  { projects := [], clients := [], suppliers := [], purchaseOrders := [],
    externalLinks := [], shipments := [] }

/-!
## The merge-style variant (`src/src/contexts/DataContext.tsx`)

In that module `updateProject` takes a `Partial<Project>` and merges it
over the old record with an object spread, so fields absent from the
payload keep their previous values.
-/

namespace MainCtx

/-- `Project` of `DataContext.tsx` lines 6-17 (here `projectManager` is
required and there is no derived-progress machinery). -/
structure Project where
  id : String
  name : String
  clientId : String
  location : String
  status : String
  progress : ℚ
  startDate : String
  endDate : String
  projectManager : String
  description : Option String
deriving DecidableEq, Repr

/-- A `Partial<Project>` payload: every key may be absent (`none`).  For
the optional `description` key, `some v` means the key is present with
value `v` (itself possibly `undefined`). -/
structure ProjectPatch where
  id : Option String
  name : Option String
  clientId : Option String
  location : Option String
  status : Option String
  progress : Option ℚ
  startDate : Option String
  endDate : Option String
  projectManager : Option String
  description : Option (Option String)
deriving DecidableEq, Repr

/-- The object spread `{ ...p, ...project }`: a key present in the patch
wins, an absent key keeps the old record's value. -/
def spreadPatch (p : Project) (q : ProjectPatch) : Project :=
  { id := q.id.getD p.id, name := q.name.getD p.name,
    clientId := q.clientId.getD p.clientId, location := q.location.getD p.location,
    status := q.status.getD p.status, progress := q.progress.getD p.progress,
    startDate := q.startDate.getD p.startDate, endDate := q.endDate.getD p.endDate,
    projectManager := q.projectManager.getD p.projectManager,
    description := q.description.getD p.description }

/-- `updateProject` of `DataContext.tsx` lines 300-302. -/
def updateProject (id : String) (project : ProjectPatch) (projects : List Project) :
    List Project :=
  projects.map (fun p => if p.id == id then spreadPatch p project else p)

end MainCtx

/-!
## Local Persistence Adapter (`part_002` lines 146-161)

`localStorage.setItem('asepsData', JSON.stringify(data))` serializes the
whole snapshot; the load initializer runs `JSON.parse` on the stored
string.  JSON text is an injective rendering of the value tree below, so
the adapter is modelled as the pair encode / decode on that tree.
`JSON.stringify` drops keys whose value is `undefined`, and a dropped key
reads back as `undefined`; the model keeps presence information by writing
an explicit `null` placeholder for an absent optional field and reading
the placeholder back as absence, which is the same observable behaviour.
-/

/-- A JSON value tree. -/
inductive JValue where
  | null
  | bool (b : Bool)
  | num (q : ℚ)
  | str (s : String)
  | arr (xs : List JValue)
  | obj (fields : List (String × JValue))

/-- Key lookup in a parsed JSON object. -/
def jget : List (String × JValue) → String → Option JValue
  | [], _ => none
  | (k, v) :: rest, key => if k = key then some v else jget rest key

/-- Property access `j[key]` on a parsed value. -/
def JValue.field : JValue → String → Option JValue
  | .obj fs, key => jget fs key
  | _, _ => none

/-- Read a string value. -/
def JValue.asStr : JValue → Option String
  | .str s => some s
  | _ => none

/-- Read a numeric value. -/
def JValue.asNum : JValue → Option ℚ
  | .num q => some q
  | _ => none

/-- Required string field. -/
def decReqStr (j : JValue) (k : String) : Option String :=
  (j.field k).bind JValue.asStr

/-- Required numeric field. -/
def decReqNum (j : JValue) (k : String) : Option ℚ :=
  (j.field k).bind JValue.asNum

/-- Encode an optional string field. -/
def encOptStr : Option String → JValue
  | none => .null
  | some s => .str s

/-- Decode an optional string field. -/
def decOptStr : Option JValue → Option (Option String)
  | some .null => some none
  | some (.str s) => some (some s)
  | _ => none

/-- Encode an optional numeric field. -/
def encOptNum : Option ℚ → JValue
  | none => .null
  | some q => .num q

/-- Decode an optional numeric field. -/
def decOptNum : Option JValue → Option (Option ℚ)
  | some .null => some none
  | some (.num q) => some (some q)
  | _ => none

/-- Decode every element of a JSON array. -/
def decList {α : Type} (dec : JValue → Option α) : List JValue → Option (List α)
  | [] => some []
  | j :: rest =>
    match dec j, decList dec rest with
    | some a, some l => some (a :: l)
    | _, _ => none

/-- Required array field decoded elementwise. -/
def decReqArr {α : Type} (dec : JValue → Option α) (j : JValue) (k : String) :
    Option (List α) :=
  match j.field k with
  | some (.arr xs) => decList dec xs
  | _ => none

/-- Encode an optional list-of-strings field. -/
def encOptStrList : Option (List String) → JValue
  | none => .null
  | some l => .arr (l.map .str)

/-- Decode an optional list-of-strings field. -/
def decOptStrList : Option JValue → Option (Option (List String))
  | some .null => some none
  | some (.arr xs) => (decList JValue.asStr xs).map some
  | _ => none

/-- Serialized form of a `Project`. -/
def encodeProject (p : Project) : JValue :=
  .obj [("id", .str p.id), ("name", .str p.name), ("clientId", .str p.clientId),
    ("location", .str p.location), ("status", .str p.status), ("progress", .num p.progress),
    ("startDate", .str p.startDate), ("endDate", .str p.endDate),
    ("projectManager", encOptStr p.projectManager), ("description", encOptStr p.description)]

/-- Parse a `Project` back out of its serialized form. -/
def decodeProject (j : JValue) : Option Project := do
  let id ← decReqStr j "id"
  let name ← decReqStr j "name"
  let clientId ← decReqStr j "clientId"
  let location ← decReqStr j "location"
  let status ← decReqStr j "status"
  let progress ← decReqNum j "progress"
  let startDate ← decReqStr j "startDate"
  let endDate ← decReqStr j "endDate"
  let projectManager ← decOptStr (j.field "projectManager")
  let description ← decOptStr (j.field "description")
  pure { id, name, clientId, location, status, progress, startDate, endDate,
         projectManager, description }

/-- Serialized form of a `Client`. -/
def encodeClient (c : Client) : JValue :=
  .obj [("id", .str c.id), ("name", .str c.name),
    ("contactPerson", encOptStr c.contactPerson), ("email", encOptStr c.email),
    ("phone", encOptStr c.phone), ("location", encOptStr c.location)]

/-- Parse a `Client`. -/
def decodeClient (j : JValue) : Option Client := do
  let id ← decReqStr j "id"
  let name ← decReqStr j "name"
  let contactPerson ← decOptStr (j.field "contactPerson")
  let email ← decOptStr (j.field "email")
  let phone ← decOptStr (j.field "phone")
  let location ← decOptStr (j.field "location")
  pure { id, name, contactPerson, email, phone, location }

/-- Serialized form of a `Supplier`. -/
def encodeSupplier (s : Supplier) : JValue :=
  .obj [("id", .str s.id), ("name", .str s.name), ("country", encOptStr s.country),
    ("contactPerson", encOptStr s.contactPerson), ("email", encOptStr s.email),
    ("phone", encOptStr s.phone), ("rating", encOptNum s.rating),
    ("onTimeDelivery", encOptNum s.onTimeDelivery), ("location", encOptStr s.location),
    ("positiveComments", encOptStrList s.positiveComments),
    ("negativeComments", encOptStrList s.negativeComments)]

/-- Parse a `Supplier`. -/
def decodeSupplier (j : JValue) : Option Supplier := do
  let id ← decReqStr j "id"
  let name ← decReqStr j "name"
  let country ← decOptStr (j.field "country")
  let contactPerson ← decOptStr (j.field "contactPerson")
  let email ← decOptStr (j.field "email")
  let phone ← decOptStr (j.field "phone")
  let rating ← decOptNum (j.field "rating")
  let onTimeDelivery ← decOptNum (j.field "onTimeDelivery")
  let location ← decOptStr (j.field "location")
  let positiveComments ← decOptStrList (j.field "positiveComments")
  let negativeComments ← decOptStrList (j.field "negativeComments")
  pure { id, name, country, contactPerson, email, phone, rating, onTimeDelivery,
         location, positiveComments, negativeComments }

/-- Serialized form of a `Part`. -/
def encodePart (p : Part) : JValue :=
  .obj [("id", .str p.id), ("name", .str p.name), ("quantity", .num p.quantity),
    ("status", .str p.status), ("progress", encOptNum p.progress)]

/-- Parse a `Part`. -/
def decodePart (j : JValue) : Option Part := do
  let id ← decReqStr j "id"
  let name ← decReqStr j "name"
  let quantity ← decReqNum j "quantity"
  let status ← decReqStr j "status"
  let progress ← decOptNum (j.field "progress")
  pure { id, name, quantity, status, progress }

/-- Serialized form of a `PurchaseOrder` (with its embedded parts). -/
def encodePurchaseOrder (po : PurchaseOrder) : JValue :=
  .obj [("id", .str po.id), ("poNumber", .str po.poNumber),
    ("projectId", .str po.projectId), ("supplierId", .str po.supplierId),
    ("status", .str po.status), ("deadline", .str po.deadline),
    ("issuedDate", .str po.issuedDate), ("parts", .arr (po.parts.map encodePart)),
    ("progress", encOptNum po.progress), ("amount", encOptNum po.amount),
    ("description", encOptStr po.description)]

/-- Parse a `PurchaseOrder`. -/
def decodePurchaseOrder (j : JValue) : Option PurchaseOrder := do
  let id ← decReqStr j "id"
  let poNumber ← decReqStr j "poNumber"
  let projectId ← decReqStr j "projectId"
  let supplierId ← decReqStr j "supplierId"
  let status ← decReqStr j "status"
  let deadline ← decReqStr j "deadline"
  let issuedDate ← decReqStr j "issuedDate"
  let parts ← decReqArr decodePart j "parts"
  let progress ← decOptNum (j.field "progress")
  let amount ← decOptNum (j.field "amount")
  let description ← decOptStr (j.field "description")
  pure { id, poNumber, projectId, supplierId, status, deadline, issuedDate, parts,
         progress, amount, description }

/-- Serialized form of a `Shipment`. -/
def encodeShipment (s : Shipment) : JValue :=
  .obj [("id", .str s.id), ("projectId", .str s.projectId),
    ("supplierId", .str s.supplierId), ("poId", .str s.poId), ("partId", .str s.partId),
    ("type", .str s.type), ("containerNumber", encOptStr s.containerNumber),
    ("containerSize", encOptStr s.containerSize),
    ("containerType", encOptStr s.containerType), ("lockNumber", encOptStr s.lockNumber),
    ("shippedDate", .str s.shippedDate), ("etdDate", .str s.etdDate),
    ("etaDate", .str s.etaDate), ("status", encOptStr s.status),
    ("trackingNumber", encOptStr s.trackingNumber), ("notes", encOptStr s.notes)]

/-- Parse a `Shipment`. -/
def decodeShipment (j : JValue) : Option Shipment := do
  let id ← decReqStr j "id"
  let projectId ← decReqStr j "projectId"
  let supplierId ← decReqStr j "supplierId"
  let poId ← decReqStr j "poId"
  let partId ← decReqStr j "partId"
  let type ← decReqStr j "type"
  let containerNumber ← decOptStr (j.field "containerNumber")
  let containerSize ← decOptStr (j.field "containerSize")
  let containerType ← decOptStr (j.field "containerType")
  let lockNumber ← decOptStr (j.field "lockNumber")
  let shippedDate ← decReqStr j "shippedDate"
  let etdDate ← decReqStr j "etdDate"
  let etaDate ← decReqStr j "etaDate"
  let status ← decOptStr (j.field "status")
  let trackingNumber ← decOptStr (j.field "trackingNumber")
  let notes ← decOptStr (j.field "notes")
  pure { id, projectId, supplierId, poId, partId, type, containerNumber, containerSize,
         containerType, lockNumber, shippedDate, etdDate, etaDate, status,
         trackingNumber, notes }

/-- Serialized form of an `ExternalLink`. -/
def encodeExternalLink (el : ExternalLink) : JValue :=
  .obj [("id", .str el.id), ("type", .str el.type), ("projectId", .str el.projectId),
    ("supplierId", encOptStr el.supplierId), ("poId", encOptStr el.poId),
    ("title", .str el.title), ("url", .str el.url), ("date", .str el.date)]

/-- Parse an `ExternalLink`. -/
def decodeExternalLink (j : JValue) : Option ExternalLink := do
  let id ← decReqStr j "id"
  let type ← decReqStr j "type"
  let projectId ← decReqStr j "projectId"
  let supplierId ← decOptStr (j.field "supplierId")
  let poId ← decOptStr (j.field "poId")
  let title ← decReqStr j "title"
  let url ← decReqStr j "url"
  let date ← decReqStr j "date"
  pure { id, type, projectId, supplierId, poId, title, url, date }

/-- `JSON.stringify(data)`: the serialized snapshot written under the
`asepsData` key after every state change (`part_002` lines 158-161). -/
def localSave (s : DataState) : JValue :=
  .obj [("projects", .arr (s.projects.map encodeProject)),
    ("clients", .arr (s.clients.map encodeClient)),
    ("suppliers", .arr (s.suppliers.map encodeSupplier)),
    ("purchaseOrders", .arr (s.purchaseOrders.map encodePurchaseOrder)),
    ("externalLinks", .arr (s.externalLinks.map encodeExternalLink)),
    ("shipments", .arr (s.shipments.map encodeShipment))]

/-- `JSON.parse(savedData)` read back as a snapshot (`part_002`
lines 146-150). -/
def localLoad (j : JValue) : Option DataState := do
  let projects ← decReqArr decodeProject j "projects"
  let clients ← decReqArr decodeClient j "clients"
  let suppliers ← decReqArr decodeSupplier j "suppliers"
  let purchaseOrders ← decReqArr decodePurchaseOrder j "purchaseOrders"
  let externalLinks ← decReqArr decodeExternalLink j "externalLinks"
  let shipments ← decReqArr decodeShipment j "shipments"
  pure { projects, clients, suppliers, purchaseOrders, externalLinks, shipments }

/-!
## Codec roundtrip lemmas
-/

theorem decOptStr_encOptStr (o : Option String) : decOptStr (some (encOptStr o)) = some o := by
  cases o <;> rfl

theorem decOptNum_encOptNum (o : Option ℚ) : decOptNum (some (encOptNum o)) = some o := by
  cases o <;> rfl

theorem decList_map {α : Type} (dec : JValue → Option α) (enc : α → JValue)
    (h : ∀ a, dec (enc a) = some a) (l : List α) : decList dec (l.map enc) = some l := by
  induction l with
  | nil => rfl
  | cons a t ih => simp [decList, h, ih]

theorem decOptStrList_encOptStrList (o : Option (List String)) :
    decOptStrList (some (encOptStrList o)) = some o := by
  cases o with
  | none => rfl
  | some l =>
    simp [encOptStrList, decOptStrList,
      decList_map JValue.asStr JValue.str (fun s => rfl) l]

theorem decodeProject_encodeProject (p : Project) :
    decodeProject (encodeProject p) = some p := by
  cases p
  simp [decodeProject, encodeProject, decReqStr, decReqNum, JValue.field, jget,
    JValue.asStr, JValue.asNum, decOptStr_encOptStr, bind, Option.bind]

theorem decodeClient_encodeClient (c : Client) :
    decodeClient (encodeClient c) = some c := by
  cases c
  simp [decodeClient, encodeClient, decReqStr, JValue.field, jget, JValue.asStr,
    decOptStr_encOptStr, bind, Option.bind]

theorem decodeSupplier_encodeSupplier (s : Supplier) :
    decodeSupplier (encodeSupplier s) = some s := by
  cases s
  simp [decodeSupplier, encodeSupplier, decReqStr, JValue.field, jget, JValue.asStr,
    decOptStr_encOptStr, decOptNum_encOptNum, decOptStrList_encOptStrList, bind,
    Option.bind]

theorem decodePart_encodePart (p : Part) : decodePart (encodePart p) = some p := by
  cases p
  simp [decodePart, encodePart, decReqStr, decReqNum, JValue.field, jget, JValue.asStr,
    JValue.asNum, decOptNum_encOptNum, bind, Option.bind]

theorem decodePurchaseOrder_encodePurchaseOrder (po : PurchaseOrder) :
    decodePurchaseOrder (encodePurchaseOrder po) = some po := by
  cases po
  simp [decodePurchaseOrder, encodePurchaseOrder, decReqStr, decReqNum, decReqArr,
    JValue.field, jget, JValue.asStr, JValue.asNum, decOptStr_encOptStr,
    decOptNum_encOptNum, decList_map decodePart encodePart decodePart_encodePart,
    bind, Option.bind]

theorem decodeShipment_encodeShipment (s : Shipment) :
    decodeShipment (encodeShipment s) = some s := by
  cases s
  simp [decodeShipment, encodeShipment, decReqStr, JValue.field, jget, JValue.asStr,
    decOptStr_encOptStr, bind, Option.bind]

theorem decodeExternalLink_encodeExternalLink (el : ExternalLink) :
    decodeExternalLink (encodeExternalLink el) = some el := by
  cases el
  simp [decodeExternalLink, encodeExternalLink, decReqStr, JValue.field, jget,
    JValue.asStr, decOptStr_encOptStr, bind, Option.bind]

/-!
## Shared helper lemmas
-/

/-- Element access through a conditional map that fixes the element at
hand: the element is unchanged whichever branch is taken. -/
theorem get_ite_map {α : Type} (c : Prop) [Decidable c] (l : List α) (f : α → α)
    (i : ℕ) (hi : i < l.length) (hfix : f (l.get ⟨i, hi⟩) = l.get ⟨i, hi⟩) :
    ∃ hi' : i < (if c then l.map f else l).length,
      (if c then l.map f else l).get ⟨i, hi'⟩ = l.get ⟨i, hi⟩ := by
  have hify : (if c then l.map f else l) = l.map f ∨ (if c then l.map f else l) = l := by
    by_cases hc : c
    · exact Or.inl (if_pos hc)
    · exact Or.inr (if_neg hc)
  rcases hify with h | h
  · rw [h]
    refine ⟨by simpa using hi, ?_⟩
    simp only [List.get_eq_getElem, List.getElem_map]
    simpa [List.get_eq_getElem] using hfix
  · rw [h]
    exact ⟨hi, rfl⟩

/-- Filtering a list for a key after everything with that key was filtered
out leaves nothing. -/
theorem filter_key_after_remove {α : Type} (f : α → String) (id : String) (l : List α) :
    (l.filter (fun a => f a != id)).filter (fun a => f a == id) = [] := by
  induction l with
  | nil => rfl
  | cons a t ih =>
    by_cases h : f a = id
    · simp [List.filter, h, ih]
    · have hb : (f a != id) = true := by simp [h]
      have hb2 : (f a == id) = false := by simp [h]
      simp [List.filter, hb, hb2, ih]

/-!
## Sample records used by concrete witnesses and counterexamples
-/

/-- A project fixture. -/
def sampleProject (id : String) (progress : ℚ) : Project :=
  { id := id, name := "Factory A", clientId := "c1", location := "Shanghai",
    status := "In Progress", progress := progress, startDate := "2025-01-01",
    endDate := "2025-12-31", projectManager := none, description := none }

/-- A purchase-order fixture. -/
def samplePO (id projectId : String) (progress : Option ℚ) : PurchaseOrder :=
  { id := id, poNumber := "PO-1", projectId := projectId, supplierId := "s1",
    status := "Active", deadline := "2025-06-01", issuedDate := "2025-01-10",
    parts := [], progress := progress, amount := none, description := none }

/-- A shipment fixture. -/
def sampleShipment (id projectId : String) : Shipment :=
  { id := id, projectId := projectId, supplierId := "s1", poId := "po1",
    partId := "part1", type := "Air Freight", containerNumber := none,
    containerSize := none, containerType := none, lockNumber := none,
    shippedDate := "2025-02-01", etdDate := "2025-02-02", etaDate := "2025-02-20",
    status := none, trackingNumber := none, notes := none }

/-- An external-link fixture. -/
def sampleLink (id : String) (supplierId : Option String) : ExternalLink :=
  { id := id, type := "Report", projectId := "p1", supplierId := supplierId,
    poId := none, title := "report", url := "/r.pdf", date := "2025-03-01" }

/-!
## C9 — local persistence roundtrip
-/

/-- **C9.** For every snapshot `S` of the six collections, saving `S` to
local persistence and loading it back yields `S` field for field:
`localLoad (localSave S) = some S`. -/
theorem localPersistence_roundtrip (s : DataState) : localLoad (localSave s) = some s := by
  cases s
  simp [localLoad, localSave, decReqArr, JValue.field, jget,
    decList_map decodeProject encodeProject decodeProject_encodeProject,
    decList_map decodeClient encodeClient decodeClient_encodeClient,
    decList_map decodeSupplier encodeSupplier decodeSupplier_encodeSupplier,
    decList_map decodePurchaseOrder encodePurchaseOrder
      decodePurchaseOrder_encodePurchaseOrder,
    decList_map decodeExternalLink encodeExternalLink
      decodeExternalLink_encodeExternalLink,
    decList_map decodeShipment encodeShipment decodeShipment_encodeShipment,
    bind, Option.bind]

/-!
## C1 — project progress derivation on purchase-order mutations
-/

/-- The three purchase-order mutations of the store. -/
inductive POMutation where
  | addPO (newId : String) (po : PurchaseOrder)
  | updatePO (id : String) (po : PurchaseOrder)
  | deletePO (id : String)

/-- Dispatch a purchase-order mutation to the store operation. -/
def applyPOMutation : POMutation → DataState → DataState
  | .addPO newId po, s => addPurchaseOrder newId po s
  | .updatePO id po, s => updatePurchaseOrder id po s
  | .deletePO id, s => deletePurchaseOrder id s

/-- The project a purchase-order mutation recomputes progress for: the
payload's `projectId` for add/update, the deleted purchase order's
`projectId` (when the id is found) for delete. -/
def affectedProjectId : POMutation → DataState → Option String
  | .addPO _ po, _ => some po.projectId
  | .updatePO _ po, _ => some po.projectId
  | .deletePO id, s =>
    (s.purchaseOrders.find? (fun po => po.id == id)).map PurchaseOrder.projectId

/-- A project with the recomputed id drawn from the progress-updating map
carries exactly the recomputed progress value. -/
theorem progress_of_mem_map (l : List Project) (pid : String) (v : ℚ) (p : Project)
    (hp : p ∈ l.map (fun project =>
      if project.id == pid then { project with progress := v } else project))
    (hpid : p.id = pid) : p.progress = v := by
  rcases List.mem_map.mp hp with ⟨q, hq, hfq⟩
  by_cases h : (q.id == pid) = true
  · rw [← hfq]
    simp [h]
  · have hpq : p = q := by rw [← hfq]; simp [h]
    rw [hpq] at hpid
    exact absurd hpid (by simpa using h)

/-- Through the conditional progress-updating map: when the condition
holds the matching project carries the recomputed progress, otherwise the
list is returned unchanged. -/
theorem mem_ite_map_progress (c : Prop) [Decidable c] (l : List Project) (pid : String)
    (v : ℚ) (p : Project)
    (hp : p ∈ (if c then
      l.map (fun project =>
        if project.id == pid then { project with progress := v } else project)
      else l))
    (hpid : p.id = pid) :
    (c → p.progress = v) ∧ (¬c → p ∈ l) := by
  by_cases hc : c
  · rw [if_pos hc] at hp
    exact ⟨fun _ => progress_of_mem_map l pid v p hp hpid, fun hnc => absurd hc hnc⟩
  · rw [if_neg hc] at hp
    exact ⟨fun h => absurd h hc, fun _ => hp⟩

/-- **C1.**  For every purchase-order mutation, the project it affects
(`affectedProjectId`) ends with progress equal to
`Math.round` of the mean of the progress values (unset read as `0`) of
the purchase orders now belonging to it; when it has no purchase orders
after the mutation, its record is left unchanged.  Project ids are
generated uuids, hence the nonemptiness hypothesis on `projectId`. -/
theorem poMutation_recomputes_target_progress (s : DataState) (m : POMutation)
    (hids : ∀ po ∈ s.purchaseOrders, po.projectId ≠ "")
    (p : Project) (hp : p ∈ (applyPOMutation m s).projects)
    (ht : affectedProjectId m s = some p.id) :
    ((applyPOMutation m s).purchaseOrders.filter (fun po => po.projectId == p.id) ≠ [] →
      p.progress = averageProgress
        ((applyPOMutation m s).purchaseOrders.filter (fun po => po.projectId == p.id))) ∧
    ((applyPOMutation m s).purchaseOrders.filter (fun po => po.projectId == p.id) = [] →
      p ∈ s.projects) := by
  cases m with
  | addPO newId po =>
    simp only [applyPOMutation, affectedProjectId] at hp ht ⊢
    have hpid : po.projectId = p.id := Option.some.inj ht
    simp only [addPurchaseOrder] at hp ⊢
    constructor
    · intro _
      rw [← hpid]
      exact progress_of_mem_map _ _ _ p hp hpid.symm
    · intro h2
      exfalso
      have hmem : ({ po with id := newId } : PurchaseOrder) ∈
          (s.purchaseOrders ++ [({ po with id := newId } : PurchaseOrder)]).filter
            (fun po' => po'.projectId == p.id) := by
        refine List.mem_filter.mpr ⟨by simp, ?_⟩
        simp [hpid]
      rw [h2] at hmem
      exact absurd hmem (List.not_mem_nil _)
  | updatePO id po =>
    simp only [applyPOMutation, affectedProjectId] at hp ht ⊢
    have hpid : po.projectId = p.id := Option.some.inj ht
    simp only [updatePurchaseOrder] at hp ⊢
    rw [← hpid]
    have hmem := mem_ite_map_progress _ _ _ _ p hp hpid.symm
    constructor
    · intro h1
      exact hmem.1 (List.length_pos.mpr h1)
    · intro h2
      refine hmem.2 ?_
      rw [h2]
      simp
  | deletePO id =>
    simp only [applyPOMutation, affectedProjectId] at hp ht ⊢
    rcases hfind : s.purchaseOrders.find? (fun po' => po'.id == id) with _ | po0
    · rw [hfind] at ht
      simp at ht
    · rw [hfind] at ht
      have hpid : po0.projectId = p.id := by simpa using ht
      have hne0 : po0.projectId ≠ "" := hids po0 (List.mem_of_find?_eq_some hfind)
      simp only [deletePurchaseOrder] at hp ⊢
      rw [hfind] at hp
      simp only [if_pos hne0] at hp
      rw [← hpid]
      have hmem := mem_ite_map_progress _ _ _ _ p hp hpid.symm
      constructor
      · intro h1
        exact hmem.1 (List.length_pos.mpr h1)
      · intro h2
        refine hmem.2 ?_
        rw [h2]
        simp

/-- Store fixture for the C1 witness: project `p1` with one purchase
order of progress 20. -/
def c1State : DataState :=
  { emptyDataState with
    projects := [sampleProject "p1" 0],
    purchaseOrders := [samplePO "po1" "p1" (some 20)] }

/-- The C1 witness mutation: add a second purchase order of progress 60
to `p1`. -/
def c1Mutation : POMutation := POMutation.addPO "po2" (samplePO "po2" "p1" (some 60))

/-- The project record expected after the witness mutation. -/
def c1Target : Project := { sampleProject "p1" 0 with progress := 40 }

/-- Evaluating the witness mutation: the store ends with both purchase
orders and the project at progress 40. -/
theorem c1_state_eval :
    applyPOMutation c1Mutation c1State =
      { c1State with
        projects := [c1Target],
        purchaseOrders := [samplePO "po1" "p1" (some 20), samplePO "po2" "p1" (some 60)] } := by
  simp [applyPOMutation, addPurchaseOrder, c1Mutation, c1State, c1Target, samplePO,
    sampleProject, emptyDataState, averageProgress, progressSum, jRound]
  norm_num

/-- **C1 witness**: with purchase orders of progress `[20, 60]`, the
affected project's progress becomes `round((20 + 60) / 2) = 40`. -/
theorem poMutation_recomputes_target_progress_witness :
    (∀ po ∈ c1State.purchaseOrders, po.projectId ≠ "") ∧
    c1Target ∈ (applyPOMutation c1Mutation c1State).projects ∧
    affectedProjectId c1Mutation c1State = some c1Target.id ∧
    (((applyPOMutation c1Mutation c1State).purchaseOrders.filter
        (fun po => po.projectId == c1Target.id) ≠ [] →
      c1Target.progress = averageProgress
        ((applyPOMutation c1Mutation c1State).purchaseOrders.filter
          (fun po => po.projectId == c1Target.id))) ∧
     ((applyPOMutation c1Mutation c1State).purchaseOrders.filter
        (fun po => po.projectId == c1Target.id) = [] →
      c1Target ∈ c1State.projects)) ∧
    (applyPOMutation c1Mutation c1State).projects.map Project.progress = [40] :=
  ⟨by decide, by rw [c1_state_eval]; decide, by decide,
    poMutation_recomputes_target_progress c1State c1Mutation (by decide) c1Target
      (by rw [c1_state_eval]; decide) (by decide),
    by rw [c1_state_eval]; decide⟩

/-!
## C2 — deleteProject cascade
-/

/-- Component state with one project and one shipment of that project in
the separately managed shipments collection. -/
def c2State : ProviderState :=
  { data := { emptyDataState with projects := [sampleProject "p1" 0] },
    shipmentsState := [sampleShipment "sh1" "p1"] }

/-- **C2 counterexample.**  `"p1"` is a project of the store, yet after
`deleteProject "p1"` the shipments collection exposed to consumers (the
separate `shipments` state written by `addShipment`) still contains a
shipment with `projectId = "p1"`: the claim that zero shipments with that
`projectId` remain is false. -/
theorem deleteProject_leaves_exposed_shipment :
    c2State.data.projects.map Project.id = ["p1"] ∧
    (exposedShipments (providerDeleteProject "p1" c2State)).map Shipment.projectId =
      ["p1"] := by
  constructor <;> rfl

/-- **C2 (amended).**  After `deleteProject id` the snapshot held in
`data` contains no purchase order, external link, embedded shipment or
project with that `projectId`/`id`; the separately managed shipments
collection (the one consumers read and `addShipment` writes) is left
untouched, so shipments of the deleted project survive there. -/
theorem deleteProject_cascades_in_snapshot (st : ProviderState) (id : String) :
    (providerDeleteProject id st).data.projects.filter (fun p => p.id == id) = [] ∧
    (providerDeleteProject id st).data.purchaseOrders.filter
      (fun po => po.projectId == id) = [] ∧
    (providerDeleteProject id st).data.externalLinks.filter
      (fun el => el.projectId == id) = [] ∧
    (providerDeleteProject id st).data.shipments.filter
      (fun s => s.projectId == id) = [] ∧
    (providerDeleteProject id st).shipmentsState = st.shipmentsState := by
  refine ⟨?_, ?_, ?_, ?_, rfl⟩
  · exact filter_key_after_remove Project.id id st.data.projects
  · exact filter_key_after_remove PurchaseOrder.projectId id st.data.purchaseOrders
  · exact filter_key_after_remove ExternalLink.projectId id st.data.externalLinks
  · exact filter_key_after_remove Shipment.projectId id st.data.shipments

/-!
## C3 — deleteSupplier nulls links, removes purchase orders
-/

/-- **C3.**  After `deleteSupplier sid`: every external link that carried
`supplierId = sid` is still present, as the same record with `supplierId`
cleared; no link is removed (the collection keeps its length); and no
purchase order with `supplierId = sid` remains. -/
theorem deleteSupplier_nulls_links_removes_pos (s : DataState) (sid : String)
    (el : ExternalLink) (hel : el ∈ s.externalLinks) (hsup : el.supplierId = some sid) :
    { el with supplierId := none } ∈ (deleteSupplier sid s).externalLinks ∧
    (deleteSupplier sid s).externalLinks.length = s.externalLinks.length ∧
    (deleteSupplier sid s).purchaseOrders.filter (fun po => po.supplierId == sid) = [] := by
  refine ⟨?_, ?_, ?_⟩
  · simp only [deleteSupplier]
    exact List.mem_map.mpr ⟨el, hel, by simp [hsup]⟩
  · simp [deleteSupplier]
  · exact filter_key_after_remove PurchaseOrder.supplierId sid s.purchaseOrders

/-- Store fixture for the C3 witness. -/
def c3State : DataState :=
  { emptyDataState with
    suppliers := [],
    purchaseOrders := [samplePO "po1" "p1" (some 50)],
    externalLinks := [sampleLink "l1" (some "s1")] }

/-- **C3 witness** at a concrete store: one link referencing supplier
`"s1"` and one purchase order referencing it. -/
theorem deleteSupplier_nulls_links_removes_pos_witness :
    (sampleLink "l1" (some "s1") ∈ c3State.externalLinks ∧
      (sampleLink "l1" (some "s1")).supplierId = some "s1") ∧
    ({ sampleLink "l1" (some "s1") with supplierId := none } ∈
        (deleteSupplier "s1" c3State).externalLinks ∧
      (deleteSupplier "s1" c3State).externalLinks.length = c3State.externalLinks.length ∧
      (deleteSupplier "s1" c3State).purchaseOrders.filter
        (fun po => po.supplierId == "s1") = []) := by
  refine ⟨⟨by decide, by decide⟩, ?_⟩
  · have hsup : (samplePO "po1" "p1" (some 50)).supplierId = "s1" := by decide
    exact deleteSupplier_nulls_links_removes_pos c3State "s1" (sampleLink "l1" (some "s1"))
      (by decide) (by decide)

/-!
## C4 — update semantics
-/

/-- The pre-update project record: its optional `description` is set. -/
def c4Old : Project :=
  { id := "p1", name := "Old name", clientId := "c1", location := "KL",
    status := "Pending", progress := 10, startDate := "2025-01-01",
    endDate := "2025-02-01", projectManager := some "PM", description := some "keep me" }

/-- An `Omit<Project, "id">` payload whose optional `description` key is
absent. -/
def c4Payload : Project :=
  { id := "ignored", name := "New name", clientId := "c1", location := "KL",
    status := "Pending", progress := 10, startDate := "2025-01-01",
    endDate := "2025-02-01", projectManager := some "PM", description := none }

/-- Store containing only `c4Old`. -/
def c4State : DataState := { emptyDataState with projects := [c4Old] }

/-- **C4 counterexample.**  In the `part_002` store, `updateProject`
replaces the matching record by the payload wholesale, so the
`description` field — absent from the payload — does *not* keep its
pre-update value `some "keep me"`: partial-patch semantics fails. -/
theorem updateProject_drops_absent_fields :
    c4State.projects.map Project.description = [some "keep me"] ∧
    c4Payload.description = none ∧
    (updateProject "p1" c4Payload c4State).projects.map Project.description = [none] ∧
    (updateProject "p1" c4Payload c4State).projects.map Project.description ≠
      c4State.projects.map Project.description := by
  refine ⟨rfl, rfl, rfl, by decide⟩

/-- **C4 (amended).**  Update semantics differ per variant.  In the
`DataContext.tsx` variant, `updateProject` merges the payload over the old
record with an object spread: when the payload carries no `id` key, the
matched record keeps its id, every field present in the payload takes the
payload's value, every field absent from the payload keeps its pre-update
value, and records with a different id are untouched.  (In the `part_002`
variant the payload replaces all fields, see the counterexample.) -/
theorem mainUpdateProject_merge_semantics (ps : List MainCtx.Project) (id : String)
    (q : MainCtx.ProjectPatch) (hqid : q.id = none) (i : ℕ) (hi : i < ps.length) :
    ∃ hi' : i < (MainCtx.updateProject id q ps).length,
      ((ps.get ⟨i, hi⟩).id ≠ id →
        (MainCtx.updateProject id q ps).get ⟨i, hi'⟩ = ps.get ⟨i, hi⟩) ∧
      ((ps.get ⟨i, hi⟩).id = id →
        ((MainCtx.updateProject id q ps).get ⟨i, hi'⟩).id = (ps.get ⟨i, hi⟩).id ∧
        (q.name = none →
          ((MainCtx.updateProject id q ps).get ⟨i, hi'⟩).name = (ps.get ⟨i, hi⟩).name) ∧
        (∀ v, q.name = some v → ((MainCtx.updateProject id q ps).get ⟨i, hi'⟩).name = v) ∧
        (q.clientId = none →
          ((MainCtx.updateProject id q ps).get ⟨i, hi'⟩).clientId =
            (ps.get ⟨i, hi⟩).clientId) ∧
        (∀ v, q.clientId = some v →
          ((MainCtx.updateProject id q ps).get ⟨i, hi'⟩).clientId = v) ∧
        (q.location = none →
          ((MainCtx.updateProject id q ps).get ⟨i, hi'⟩).location =
            (ps.get ⟨i, hi⟩).location) ∧
        (∀ v, q.location = some v →
          ((MainCtx.updateProject id q ps).get ⟨i, hi'⟩).location = v) ∧
        (q.status = none →
          ((MainCtx.updateProject id q ps).get ⟨i, hi'⟩).status = (ps.get ⟨i, hi⟩).status) ∧
        (∀ v, q.status = some v →
          ((MainCtx.updateProject id q ps).get ⟨i, hi'⟩).status = v) ∧
        (q.progress = none →
          ((MainCtx.updateProject id q ps).get ⟨i, hi'⟩).progress =
            (ps.get ⟨i, hi⟩).progress) ∧
        (∀ v, q.progress = some v →
          ((MainCtx.updateProject id q ps).get ⟨i, hi'⟩).progress = v) ∧
        (q.startDate = none →
          ((MainCtx.updateProject id q ps).get ⟨i, hi'⟩).startDate =
            (ps.get ⟨i, hi⟩).startDate) ∧
        (∀ v, q.startDate = some v →
          ((MainCtx.updateProject id q ps).get ⟨i, hi'⟩).startDate = v) ∧
        (q.endDate = none →
          ((MainCtx.updateProject id q ps).get ⟨i, hi'⟩).endDate =
            (ps.get ⟨i, hi⟩).endDate) ∧
        (∀ v, q.endDate = some v →
          ((MainCtx.updateProject id q ps).get ⟨i, hi'⟩).endDate = v) ∧
        (q.projectManager = none →
          ((MainCtx.updateProject id q ps).get ⟨i, hi'⟩).projectManager =
            (ps.get ⟨i, hi⟩).projectManager) ∧
        (∀ v, q.projectManager = some v →
          ((MainCtx.updateProject id q ps).get ⟨i, hi'⟩).projectManager = v) ∧
        (q.description = none →
          ((MainCtx.updateProject id q ps).get ⟨i, hi'⟩).description =
            (ps.get ⟨i, hi⟩).description) ∧
        (∀ v, q.description = some v →
          ((MainCtx.updateProject id q ps).get ⟨i, hi'⟩).description = v)) := by
  refine ⟨by simpa [MainCtx.updateProject] using hi, ?_, ?_⟩
  · intro hne
    simp only [MainCtx.updateProject, List.get_eq_getElem, List.getElem_map]
    simp only [List.get_eq_getElem] at hne
    simp [hne]
  · intro heq
    simp only [MainCtx.updateProject, List.get_eq_getElem, List.getElem_map]
    simp only [List.get_eq_getElem] at heq
    simp only [heq, beq_self_eq_true, if_true]
    and_intros
    · simp [MainCtx.spreadPatch, hqid, heq]
    all_goals first
      | (intro h; simp [MainCtx.spreadPatch, h])
      | (intro v h; simp [MainCtx.spreadPatch, h])

/-- Fixture list for the C4 witness. -/
def c4MainProjects : List MainCtx.Project :=
  [{ id := "p1", name := "Old", clientId := "c1", location := "KL", status := "Pending",
     progress := 10, startDate := "2025-01-01", endDate := "2025-02-01",
     projectManager := "PM", description := some "keep me" }]

/-- Patch for the C4 witness: only `name` and `progress` are present. -/
def c4MainPatch : MainCtx.ProjectPatch :=
  { id := none, name := some "New", clientId := none, location := none, status := none,
    progress := some 55, startDate := none, endDate := none, projectManager := none,
    description := none }

/-- **C4 witness** for the amended claim at a concrete store: patching
only `name` and `progress` keeps every other field. -/
theorem mainUpdateProject_merge_semantics_witness :
    c4MainPatch.id = none ∧ 0 < c4MainProjects.length ∧
    ∃ hi' : 0 < (MainCtx.updateProject "p1" c4MainPatch c4MainProjects).length,
      ((c4MainProjects.get ⟨0, by decide⟩).id ≠ "p1" →
        (MainCtx.updateProject "p1" c4MainPatch c4MainProjects).get ⟨0, hi'⟩ =
          c4MainProjects.get ⟨0, by decide⟩) ∧
      ((c4MainProjects.get ⟨0, by decide⟩).id = "p1" →
        ((MainCtx.updateProject "p1" c4MainPatch c4MainProjects).get ⟨0, hi'⟩).id =
          (c4MainProjects.get ⟨0, by decide⟩).id ∧
        (c4MainPatch.name = none →
          ((MainCtx.updateProject "p1" c4MainPatch c4MainProjects).get ⟨0, hi'⟩).name =
            (c4MainProjects.get ⟨0, by decide⟩).name) ∧
        (∀ v, c4MainPatch.name = some v →
          ((MainCtx.updateProject "p1" c4MainPatch c4MainProjects).get ⟨0, hi'⟩).name = v) ∧
        (c4MainPatch.clientId = none →
          ((MainCtx.updateProject "p1" c4MainPatch c4MainProjects).get ⟨0, hi'⟩).clientId =
            (c4MainProjects.get ⟨0, by decide⟩).clientId) ∧
        (∀ v, c4MainPatch.clientId = some v →
          ((MainCtx.updateProject "p1" c4MainPatch c4MainProjects).get ⟨0, hi'⟩).clientId =
            v) ∧
        (c4MainPatch.location = none →
          ((MainCtx.updateProject "p1" c4MainPatch c4MainProjects).get ⟨0, hi'⟩).location =
            (c4MainProjects.get ⟨0, by decide⟩).location) ∧
        (∀ v, c4MainPatch.location = some v →
          ((MainCtx.updateProject "p1" c4MainPatch c4MainProjects).get ⟨0, hi'⟩).location =
            v) ∧
        (c4MainPatch.status = none →
          ((MainCtx.updateProject "p1" c4MainPatch c4MainProjects).get ⟨0, hi'⟩).status =
            (c4MainProjects.get ⟨0, by decide⟩).status) ∧
        (∀ v, c4MainPatch.status = some v →
          ((MainCtx.updateProject "p1" c4MainPatch c4MainProjects).get ⟨0, hi'⟩).status =
            v) ∧
        (c4MainPatch.progress = none →
          ((MainCtx.updateProject "p1" c4MainPatch c4MainProjects).get ⟨0, hi'⟩).progress =
            (c4MainProjects.get ⟨0, by decide⟩).progress) ∧
        (∀ v, c4MainPatch.progress = some v →
          ((MainCtx.updateProject "p1" c4MainPatch c4MainProjects).get ⟨0, hi'⟩).progress =
            v) ∧
        (c4MainPatch.startDate = none →
          ((MainCtx.updateProject "p1" c4MainPatch c4MainProjects).get ⟨0, hi'⟩).startDate =
            (c4MainProjects.get ⟨0, by decide⟩).startDate) ∧
        (∀ v, c4MainPatch.startDate = some v →
          ((MainCtx.updateProject "p1" c4MainPatch c4MainProjects).get ⟨0, hi'⟩).startDate =
            v) ∧
        (c4MainPatch.endDate = none →
          ((MainCtx.updateProject "p1" c4MainPatch c4MainProjects).get ⟨0, hi'⟩).endDate =
            (c4MainProjects.get ⟨0, by decide⟩).endDate) ∧
        (∀ v, c4MainPatch.endDate = some v →
          ((MainCtx.updateProject "p1" c4MainPatch c4MainProjects).get ⟨0, hi'⟩).endDate =
            v) ∧
        (c4MainPatch.projectManager = none →
          ((MainCtx.updateProject "p1" c4MainPatch c4MainProjects).get
              ⟨0, hi'⟩).projectManager =
            (c4MainProjects.get ⟨0, by decide⟩).projectManager) ∧
        (∀ v, c4MainPatch.projectManager = some v →
          ((MainCtx.updateProject "p1" c4MainPatch c4MainProjects).get
              ⟨0, hi'⟩).projectManager = v) ∧
        (c4MainPatch.description = none →
          ((MainCtx.updateProject "p1" c4MainPatch c4MainProjects).get
              ⟨0, hi'⟩).description =
            (c4MainProjects.get ⟨0, by decide⟩).description) ∧
        (∀ v, c4MainPatch.description = some v →
          ((MainCtx.updateProject "p1" c4MainPatch c4MainProjects).get
              ⟨0, hi'⟩).description = v)) :=
  ⟨rfl, by decide,
    mainUpdateProject_merge_semantics c4MainProjects "p1" c4MainPatch rfl 0 (by decide)⟩

/-!
## C5 — push order and abort-on-failure
-/

/-- **C5.**  `syncAllData` issues its upserts in the strict table order
clients, projects, suppliers, purchaseOrders, parts, externalLinks,
shipments (an empty parts or shipments payload skips that table's
upsert); the purchase-order payload is the records with the embedded
`parts` field stripped, and the parts payload is the parts flattened from
all purchase orders and tagged with the parent id; the call succeeds
exactly when every attempted upsert succeeds, and on failure the failing
upsert is the last one attempted — every earlier step succeeded, no later
step was performed — and the failure message names it. -/
theorem syncAllData_strict_order_abort (env : SyncEnv) (projects : List Project)
    (clients : List Client) (suppliers : List Supplier)
    (purchaseOrders : List PurchaseOrder) (externalLinks : List ExternalLink)
    (shipments : List Shipment) :
    ((syncAllData env projects clients suppliers purchaseOrders externalLinks
        shipments).2.map SyncUpsert.step).Chain' (fun a b => stepIdx a < stepIdx b) ∧
    (∀ rows, SyncUpsert.purchaseOrders rows ∈ (syncAllData env projects clients suppliers
        purchaseOrders externalLinks shipments).2 →
      rows = purchaseOrders.map stripParts) ∧
    (∀ rows, SyncUpsert.parts rows ∈ (syncAllData env projects clients suppliers
        purchaseOrders externalLinks shipments).2 →
      rows = syncPartsPayload (flattenParts purchaseOrders)) ∧
    ((syncAllData env projects clients suppliers purchaseOrders externalLinks
        shipments).1.success = true ↔
      ∀ st ∈ (syncAllData env projects clients suppliers purchaseOrders externalLinks
        shipments).2.map SyncUpsert.step, stepOk env st = true) ∧
    ((syncAllData env projects clients suppliers purchaseOrders externalLinks
        shipments).1.success = false →
      ∃ st, (syncAllData env projects clients suppliers purchaseOrders externalLinks
          shipments).1.message = failMsg st ∧
        stepOk env st = false ∧
        ((syncAllData env projects clients suppliers purchaseOrders externalLinks
          shipments).2.map SyncUpsert.step).getLast? = some st ∧
        ∀ st' ∈ (syncAllData env projects clients suppliers purchaseOrders externalLinks
          shipments).2.map SyncUpsert.step, st' ≠ st →
          stepIdx st' < stepIdx st ∧ stepOk env st' = true) := by
  rcases env with ⟨c, pj, su, po, pa, el, sh⟩
  cases c with
  | false =>
    refine ⟨?_, ?_, ?_, ?_, fun _ => ⟨SyncStep.clients, ?_, ?_, ?_, ?_⟩⟩ <;>
      simp [syncAllData, syncLinksAndShipments, SyncUpsert.step, stepOk, stepIdx,
        failMsg, List.chain'_cons]
  | true =>
    cases pj with
    | false =>
      refine ⟨?_, ?_, ?_, ?_, fun _ => ⟨SyncStep.projects, ?_, ?_, ?_, ?_⟩⟩ <;>
        simp [syncAllData, syncLinksAndShipments, SyncUpsert.step, stepOk, stepIdx,
          failMsg, List.chain'_cons]
    | true =>
      cases su with
      | false =>
        refine ⟨?_, ?_, ?_, ?_, fun _ => ⟨SyncStep.suppliers, ?_, ?_, ?_, ?_⟩⟩ <;>
          simp [syncAllData, syncLinksAndShipments, SyncUpsert.step, stepOk, stepIdx,
            failMsg, List.chain'_cons]
      | true =>
        cases po with
        | false =>
          refine ⟨?_, ?_, ?_, ?_, fun _ => ⟨SyncStep.purchaseOrders, ?_, ?_, ?_, ?_⟩⟩ <;>
            simp [syncAllData, syncLinksAndShipments, SyncUpsert.step, stepOk, stepIdx,
              failMsg, List.chain'_cons]
        | true =>
          by_cases hP : (flattenParts purchaseOrders).length = 0
          · cases el with
            | false =>
              refine ⟨?_, ?_, ?_, ?_,
                  fun _ => ⟨SyncStep.externalLinks, ?_, ?_, ?_, ?_⟩⟩ <;>
                simp [syncAllData, syncLinksAndShipments, SyncUpsert.step, stepOk,
                  stepIdx, failMsg, List.chain'_cons, hP]
            | true =>
              by_cases hS : shipments.length = 0
              · simp [syncAllData, syncLinksAndShipments, SyncUpsert.step, stepOk,
                  stepIdx, failMsg, List.chain'_cons, hP, hS]
              · cases sh with
                | false =>
                  refine ⟨?_, ?_, ?_, ?_,
                      fun _ => ⟨SyncStep.shipments, ?_, ?_, ?_, ?_⟩⟩ <;>
                    simp [syncAllData, syncLinksAndShipments, SyncUpsert.step, stepOk,
                      stepIdx, failMsg, List.chain'_cons, hP, hS]
                | true =>
                  simp [syncAllData, syncLinksAndShipments, SyncUpsert.step, stepOk,
                    stepIdx, failMsg, List.chain'_cons, hP, hS]
          · cases pa with
            | false =>
              refine ⟨?_, ?_, ?_, ?_, fun _ => ⟨SyncStep.parts, ?_, ?_, ?_, ?_⟩⟩ <;>
                simp [syncAllData, syncLinksAndShipments, SyncUpsert.step, stepOk,
                  stepIdx, failMsg, List.chain'_cons, hP]
            | true =>
              cases el with
              | false =>
                refine ⟨?_, ?_, ?_, ?_,
                    fun _ => ⟨SyncStep.externalLinks, ?_, ?_, ?_, ?_⟩⟩ <;>
                  simp [syncAllData, syncLinksAndShipments, SyncUpsert.step, stepOk,
                    stepIdx, failMsg, List.chain'_cons, hP]
              | true =>
                by_cases hS : shipments.length = 0
                · simp [syncAllData, syncLinksAndShipments, SyncUpsert.step, stepOk,
                    stepIdx, failMsg, List.chain'_cons, hP, hS]
                · cases sh with
                  | false =>
                    refine ⟨?_, ?_, ?_, ?_,
                        fun _ => ⟨SyncStep.shipments, ?_, ?_, ?_, ?_⟩⟩ <;>
                      simp [syncAllData, syncLinksAndShipments, SyncUpsert.step, stepOk,
                        stepIdx, failMsg, List.chain'_cons, hP, hS]
                  | true =>
                    simp [syncAllData, syncLinksAndShipments, SyncUpsert.step, stepOk,
                      stepIdx, failMsg, List.chain'_cons, hP, hS]

/-!
## C6 — pull re-attaches parts to their owning purchase order
-/

/-- In a list whose keys are pairwise distinct, filtering for the key of
one of its members yields exactly one element. -/
theorem filter_key_unique {α : Type} (f : α → String) (l : List α)
    (hnd : (l.map f).Nodup) (k : String) (hex : ∃ a ∈ l, k = f a) :
    (l.filter (fun a => k == f a)).length = 1 := by
  induction l with
  | nil => simp at hex
  | cons a t ih =>
    simp only [List.map_cons, List.nodup_cons] at hnd
    by_cases hk : k = f a
    · have ht : t.filter (fun x => k == f x) = [] := by
        refine List.filter_eq_nil_iff.mpr ?_
        intro x hx hbx
        refine hnd.1 ?_
        have : f a = f x := by
          have := eq_of_beq hbx
          rw [← hk, this]
        rw [this]
        exact List.mem_map_of_mem f hx
      have hb : (k == f a) = true := beq_iff_eq.mpr hk
      simp [List.filter, hb, ht]
    · have hex' : ∃ x ∈ t, k = f x := by
        rcases hex with ⟨x, hx, hkx⟩
        rcases List.mem_cons.mp hx with rfl | hxt
        · exact absurd hkx hk
        · exact ⟨x, hxt, hkx⟩
      have hb : (k == f a) = false := beq_eq_false_iff_ne.mpr hk
      simp [List.filter, hb]
      exact ih hnd.2 hex'

/-- **C6.**  In a successful pull, every composed purchase order carries
exactly the part rows whose `po_id` equals its id, in table order; and —
given the remote primary-key/foreign-key discipline (distinct purchase
order ids, every part's `po_id` present among them) — each part row is
attached to exactly one purchase order and none is dropped. -/
theorem loadAllData_attaches_parts_uniquely (db : RemoteTables)
    (cs : List Client) (ps : List Project) (ss : List Supplier) (pos : List PORow)
    (parts : List PartRow) (els : List ExternalLink)
    (hc : db.clientsRes = .ok cs) (hp : db.projectsRes = .ok ps)
    (hs : db.suppliersRes = .ok ss) (hpo : db.purchaseOrdersRes = .ok pos)
    (hpa : db.partsRes = .ok parts) (hel : db.externalLinksRes = .ok els)
    (hnd : (pos.map PORow.id).Nodup)
    (hfk : ∀ part ∈ parts, ∃ po ∈ pos, part.po_id = po.id) :
    (∀ lp ∈ (loadAllData db).purchaseOrders,
      lp.parts = parts.filter (fun part => part.po_id == lp.row.id)) ∧
    (∀ part ∈ parts,
      ((loadAllData db).purchaseOrders.filter
        (fun lp => decide (part ∈ lp.parts))).length = 1) := by
  have hres : (loadAllData db).purchaseOrders = pos.map (fun po =>
      { row := po, parts := parts.filter (fun part => part.po_id == po.id) }) := by
    rcases db with ⟨rc, rp, rs, rpo, rpa, rel, rsh⟩
    cases hc; cases hp; cases hs; cases hpo; cases hpa; cases hel
    cases rsh <;> rfl
  rw [hres]
  constructor
  · intro lp hlp
    rcases List.mem_map.mp hlp with ⟨po, _, rfl⟩
    rfl
  · intro part hpart
    rw [List.filter_map]
    rw [List.length_map]
    have hcongr : pos.filter (Function.comp
        (fun lp : LoadedPO => decide (part ∈ lp.parts))
        (fun po => { row := po, parts := parts.filter (fun pr => pr.po_id == po.id) })) =
        pos.filter (fun po => part.po_id == po.id) := by
      refine List.filter_congr ?_
      intro po _
      simp only [Function.comp]
      by_cases hid : part.po_id = po.id
      · have hmem : part ∈ parts.filter (fun pr => pr.po_id == po.id) :=
          List.mem_filter.mpr ⟨hpart, beq_iff_eq.mpr hid⟩
        simp [hmem, hid]
      · have hnmem : part ∉ parts.filter (fun pr => pr.po_id == po.id) := by
          intro hmem
          exact hid (beq_iff_eq.mp (List.mem_filter.mp hmem).2)
        simp [hnmem, hid]
    rw [hcongr]
    exact filter_key_unique PORow.id pos hnd part.po_id (hfk part hpart)

/-- Remote fixture for the C6 witness: two purchase-order rows and three
part rows, two of them owned by `po1`. -/
def c6Db : RemoteTables :=
  { clientsRes := .ok [], projectsRes := .ok [], suppliersRes := .ok [],
    purchaseOrdersRes := .ok
      [{ id := "po1", poNumber := "PO-1", projectId := "p1", supplierId := "s1",
         status := "Active", deadline := "d", issuedDate := "i", progress := none,
         amount := none, description := none },
       { id := "po2", poNumber := "PO-2", projectId := "p1", supplierId := "s1",
         status := "Active", deadline := "d", issuedDate := "i", progress := none,
         amount := none, description := none }],
    partsRes := .ok
      [{ id := "pt1", name := "a", quantity := 1, status := "Pending", progress := none,
         po_id := "po1" },
       { id := "pt2", name := "b", quantity := 2, status := "Pending", progress := none,
         po_id := "po2" },
       { id := "pt3", name := "c", quantity := 3, status := "Pending", progress := none,
         po_id := "po1" }],
    externalLinksRes := .ok [], shipmentsRes := .ok [] }

/-- The purchase-order rows of the C6 fixture. -/
def c6Pos : List PORow :=
  [{ id := "po1", poNumber := "PO-1", projectId := "p1", supplierId := "s1",
     status := "Active", deadline := "d", issuedDate := "i", progress := none,
     amount := none, description := none },
   { id := "po2", poNumber := "PO-2", projectId := "p1", supplierId := "s1",
     status := "Active", deadline := "d", issuedDate := "i", progress := none,
     amount := none, description := none }]

/-- The part rows of the C6 fixture. -/
def c6Parts : List PartRow :=
  [{ id := "pt1", name := "a", quantity := 1, status := "Pending", progress := none,
     po_id := "po1" },
   { id := "pt2", name := "b", quantity := 2, status := "Pending", progress := none,
     po_id := "po2" },
   { id := "pt3", name := "c", quantity := 3, status := "Pending", progress := none,
     po_id := "po1" }]

/-- **C6 witness** at the concrete remote fixture. -/
theorem loadAllData_attaches_parts_uniquely_witness :
    ((c6Pos.map PORow.id).Nodup ∧ ∀ part ∈ c6Parts, ∃ po ∈ c6Pos, part.po_id = po.id) ∧
    ((∀ lp ∈ (loadAllData c6Db).purchaseOrders,
        lp.parts = c6Parts.filter (fun part => part.po_id == lp.row.id)) ∧
      (∀ part ∈ c6Parts,
        ((loadAllData c6Db).purchaseOrders.filter
          (fun lp => decide (part ∈ lp.parts))).length = 1)) :=
  ⟨⟨by decide, by decide⟩,
    loadAllData_attaches_parts_uniquely c6Db [] [] [] c6Pos c6Parts []
      rfl rfl rfl rfl rfl rfl (by decide) (by decide)⟩

/-!
## C7 — a shipments load error is tolerated
-/

/-- **C7.**  If every table except `shipments` loads successfully and the
shipments select reports an error, `loadAllData` still succeeds and
returns the empty shipments list. -/
theorem loadAllData_tolerates_shipments_error (db : RemoteTables)
    (cs : List Client) (ps : List Project) (ss : List Supplier) (pos : List PORow)
    (pas : List PartRow) (els : List ExternalLink) (e : String)
    (hc : db.clientsRes = .ok cs) (hp : db.projectsRes = .ok ps)
    (hs : db.suppliersRes = .ok ss) (hpo : db.purchaseOrdersRes = .ok pos)
    (hpa : db.partsRes = .ok pas) (hel : db.externalLinksRes = .ok els)
    (hsh : db.shipmentsRes = .error e) :
    (loadAllData db).success = true ∧ (loadAllData db).shipments = [] := by
  simp [loadAllData, hc, hp, hs, hpo, hpa, hel, hsh]

/-- Remote fixture: all tables empty-but-present except a failing
shipments table. -/
def c7Db : RemoteTables :=
  { clientsRes := .ok [], projectsRes := .ok [], suppliersRes := .ok [],
    purchaseOrdersRes := .ok [], partsRes := .ok [], externalLinksRes := .ok [],
    shipmentsRes := .error "relation shipments does not exist" }

/-- **C7 witness** at the concrete remote fixture. -/
theorem loadAllData_tolerates_shipments_error_witness :
    (loadAllData c7Db).success = true ∧ (loadAllData c7Db).shipments = [] :=
  loadAllData_tolerates_shipments_error c7Db [] [] [] [] [] []
    "relation shipments does not exist" rfl rfl rfl rfl rfl rfl rfl

/-!
## C8 — startup fallback
-/

/-- A nonempty stand-in for the synthetic sample dataset
(`createDummyData`, whose module is not part of the sources). -/
def c8Dummy : DataState :=
  { emptyDataState with projects := [sampleProject "demo" 65] }

/-- **C8 failing input.**  When the remote pull fails and the local blob
is present but not valid JSON, `JSON.parse` throws inside
`loadInitialData` and the outer `catch` swallows the error, so the store
keeps the initial empty snapshot — it equals neither the blob nor the
sample dataset, contradicting the claim that startup never leaves an
empty snapshot. -/
theorem loadInitialData_corrupt_blob_keeps_empty_snapshot :
    loadInitialData false emptyDataState (BlobSlot.corrupt) c8Dummy emptyDataState =
      (emptyDataState, false) ∧
    emptyDataState.projects = [] ∧ c8Dummy ≠ emptyDataState := by
  refine ⟨rfl, rfl, by decide⟩

/-!
## C10 — updatePurchaseOrder frame property
-/

/-- **C10.**  `updatePurchaseOrder` can change the progress only of the
project whose id equals the payload's `projectId`: every project at a
position whose id differs is returned unchanged, record for record — in
particular a project the purchase order is moved away from keeps its
pre-update progress. -/
theorem updatePurchaseOrder_frames_other_projects (s : DataState) (id : String)
    (po : PurchaseOrder) (i : ℕ) (hi : i < s.projects.length)
    (hne : (s.projects.get ⟨i, hi⟩).id ≠ po.projectId) :
    ∃ hi' : i < (updatePurchaseOrder id po s).projects.length,
      (updatePurchaseOrder id po s).projects.get ⟨i, hi'⟩ = s.projects.get ⟨i, hi⟩ := by
  simp only [updatePurchaseOrder]
  refine get_ite_map _ s.projects _ i hi ?_
  simp only [List.get_eq_getElem] at hne
  simp [hne]

/-- Store fixture for the C10 witness: the purchase order `po1` starts on
project `p1` and is moved to `p2`; `p1` must keep its old progress. -/
def c10State : DataState :=
  { emptyDataState with
    projects := [sampleProject "p1" 77, sampleProject "p2" 0],
    purchaseOrders := [samplePO "po1" "p1" (some 50)] }

/-- **C10 witness**: moving `po1` from `p1` to `p2` leaves the record of
`p1` (progress 77) untouched. -/
theorem updatePurchaseOrder_frames_other_projects_witness :
    ((c10State.projects.get ⟨0, by decide⟩).id ≠ (samplePO "po1" "p2" (some 50)).projectId) ∧
    ∃ hi' : 0 < (updatePurchaseOrder "po1" (samplePO "po1" "p2" (some 50)) c10State).projects.length,
      (updatePurchaseOrder "po1" (samplePO "po1" "p2" (some 50)) c10State).projects.get
        ⟨0, hi'⟩ = c10State.projects.get ⟨0, by decide⟩ :=
  ⟨by decide, updatePurchaseOrder_frames_other_projects c10State "po1"
    (samplePO "po1" "p2" (some 50)) 0 (by decide) (by decide)⟩

end Aseps
